import Mathlib

/-!
Shallow embedding of `gps303proto.py`, the codec for the zx303
("ZhongXun Topin Locator") GPS tracker binary protocol.

Conventions of the embedding:
* Python `bytes` values are `List Nat` (each element a byte value).
* Python slicing `b[a:c]` (which clamps) is `pySlice`; direct indexing
  `b[i]` (which raises `IndexError` out of range) is modelled with
  `List.get?` / `List.getD` guarded by the explicit error branch.
* Fallible Python code is `Except PyErr _`.  `struct.unpack` failures are
  `PyErr.structError`; they are the only failures that the packet-class
  constructor converts into `DecodeError` and that `parse_message`
  converts into an `UNKNOWN` result.  `IndexError` / `ValueError` /
  `TypeError` raised inside a decode propagate to the caller, exactly as
  in the source.
* Python floats are modelled as exact rationals (`ℚ`); the coordinate
  arithmetic of the source is a division and a sign flip.
-/

namespace GPS303

/-- The kinds of Python exception that the modelled code can raise. -/
inductive PyErr where
  | structError
  | indexError
  | valueError
  | typeError
deriving DecidableEq, Repr

/-- Decidable equality of fallible results, for evaluating the model on
concrete inputs. -/
instance {ε α : Type} [DecidableEq ε] [DecidableEq α] : DecidableEq (Except ε α) :=
  fun a b =>
    match a, b with
    | .ok x, .ok y =>
      if h : x = y then .isTrue (by rw [h]) else .isFalse (by simp [h])
    | .error x, .error y =>
      if h : x = y then .isTrue (by rw [h]) else .isFalse (by simp [h])
    | .ok _, .error _ => .isFalse (by simp)
    | .error _, .ok _ => .isFalse (by simp)

/-- A byte string: Python `bytes` as a list of byte values. -/
abbrev Bytes := List Nat

/-- Python slice `b[a:c]` on bytes (clamping, never failing). -/
def pySlice (b : Bytes) (a c : Nat) : Bytes := (b.take c).drop a

/-- Big-endian unsigned integer value of a byte string, as computed by
`struct.unpack` formats `!H` (2 bytes) and `!I` (4 bytes). -/
def be (b : Bytes) : Nat := b.foldl (fun acc x => 256 * acc + x) 0

/-- Lower-case hex digit, as used by Python `bytes.hex()`. -/
def hexDigitLower (n : Nat) : Char :=
  Char.ofNat (if n < 10 then 48 + n else 87 + n)

/-- Upper-case hex digit, as used by `format(b, "02X")`. -/
def hexDigitUpper (n : Nat) : Char :=
  Char.ofNat (if n < 10 then 48 + n else 55 + n)

/-- Python `format(b, "02X")` for a byte value `b`. -/
def byteHexUpper (b : Nat) : String :=
  String.mk [hexDigitUpper (b / 16 % 16), hexDigitUpper (b % 16)]

/-- Two lower-case hex digits of a byte value, one step of `bytes.hex()`. -/
def byteHexLower (b : Nat) : String :=
  String.mk [hexDigitLower (b / 16 % 16), hexDigitLower (b % 16)]

/-- Python `bytes.hex()`: lower-case hex of every byte, no separator. -/
def bytesHex (b : Bytes) : String := String.join (b.map byteHexLower)

/-- The rendering `":".join(format(b, "02X") for b in mac)`: the MAC address
used for Wi-Fi access point records. -/
def macColonHex (mac : Bytes) : String :=
  String.intercalate ":" (mac.map byteHexUpper)

/-- The catalogue of packet classes (every non-underscore subclass of
`GPS303Pkt` with a `PROTO` attribute, i.e. the value set of `CLASSES`). -/
inductive Kind where
  | UNKNOWN | LOGIN | SUPERVISION | HEARTBEAT
  | GPS_POSITIONING | GPS_OFFLINE_POSITIONING
  | STATUS | HIBERNATION | RESET | WHITELIST_TOTAL
  | WIFI_OFFLINE_POSITIONING | TIME | PROHIBIT_LBS | GPS_LBS_SWITCH_TIMES
  | REMOTE_MONITOR_PHONE | SOS_PHONE | DAD_PHONE | MOM_PHONE
  | STOP_UPLOAD | GPS_OFF_PERIOD | DND_PERIOD | RESTART_SHUTDOWN
  | DEVICE | ALARM_CLOCK | STOP_ALARM | SETUP
  | SYNCHRONOUS_WHITELIST | RESTORE_PASSWORD | WIFI_POSITIONING
  | MANUAL_POSITIONING | BATTERY_CHARGE | CHARGER_CONNECTED
  | CHARGER_DISCONNECTED | VIBRATION_RECEIVED | POSITION_UPLOAD_INTERVAL
  | SOS_ALARM | UNKNOWN_B3
deriving DecidableEq, Repr

/-- The class attribute `PROTO` of each catalogue class.  `UNKNOWN` uses
the sentinel 256, impossible in a real one-byte wire proto field. -/
def PROTO : Kind → Nat
  | .UNKNOWN => 256
  | .LOGIN => 0x01
  | .SUPERVISION => 0x05
  | .HEARTBEAT => 0x08
  | .GPS_POSITIONING => 0x10
  | .GPS_OFFLINE_POSITIONING => 0x11
  | .STATUS => 0x13
  | .HIBERNATION => 0x14
  | .RESET => 0x15
  | .WHITELIST_TOTAL => 0x16
  | .WIFI_OFFLINE_POSITIONING => 0x17
  | .TIME => 0x30
  | .PROHIBIT_LBS => 0x33
  | .GPS_LBS_SWITCH_TIMES => 0x34
  | .REMOTE_MONITOR_PHONE => 0x40
  | .SOS_PHONE => 0x41
  | .DAD_PHONE => 0x42
  | .MOM_PHONE => 0x43
  | .STOP_UPLOAD => 0x44
  | .GPS_OFF_PERIOD => 0x46
  | .DND_PERIOD => 0x47
  | .RESTART_SHUTDOWN => 0x48
  | .DEVICE => 0x49
  | .ALARM_CLOCK => 0x50
  | .STOP_ALARM => 0x56
  | .SETUP => 0x57
  | .SYNCHRONOUS_WHITELIST => 0x58
  | .RESTORE_PASSWORD => 0x67
  | .WIFI_POSITIONING => 0x69
  | .MANUAL_POSITIONING => 0x80
  | .BATTERY_CHARGE => 0x81
  | .CHARGER_CONNECTED => 0x82
  | .CHARGER_DISCONNECTED => 0x83
  | .VIBRATION_RECEIVED => 0x94
  | .POSITION_UPLOAD_INTERVAL => 0x98
  | .SOS_ALARM => 0x99
  | .UNKNOWN_B3 => 0xB3

/-- The `CLASSES` dict: protocol number to catalogue class. -/
def classByProto : Nat → Option Kind
  | 256 => some .UNKNOWN
  | 0x01 => some .LOGIN
  | 0x05 => some .SUPERVISION
  | 0x08 => some .HEARTBEAT
  | 0x10 => some .GPS_POSITIONING
  | 0x11 => some .GPS_OFFLINE_POSITIONING
  | 0x13 => some .STATUS
  | 0x14 => some .HIBERNATION
  | 0x15 => some .RESET
  | 0x16 => some .WHITELIST_TOTAL
  | 0x17 => some .WIFI_OFFLINE_POSITIONING
  | 0x30 => some .TIME
  | 0x33 => some .PROHIBIT_LBS
  | 0x34 => some .GPS_LBS_SWITCH_TIMES
  | 0x40 => some .REMOTE_MONITOR_PHONE
  | 0x41 => some .SOS_PHONE
  | 0x42 => some .DAD_PHONE
  | 0x43 => some .MOM_PHONE
  | 0x44 => some .STOP_UPLOAD
  | 0x46 => some .GPS_OFF_PERIOD
  | 0x47 => some .DND_PERIOD
  | 0x48 => some .RESTART_SHUTDOWN
  | 0x49 => some .DEVICE
  | 0x50 => some .ALARM_CLOCK
  | 0x56 => some .STOP_ALARM
  | 0x57 => some .SETUP
  | 0x58 => some .SYNCHRONOUS_WHITELIST
  | 0x67 => some .RESTORE_PASSWORD
  | 0x69 => some .WIFI_POSITIONING
  | 0x80 => some .MANUAL_POSITIONING
  | 0x81 => some .BATTERY_CHARGE
  | 0x82 => some .CHARGER_CONNECTED
  | 0x83 => some .CHARGER_DISCONNECTED
  | 0x94 => some .VIBRATION_RECEIVED
  | 0x98 => some .POSITION_UPLOAD_INTERVAL
  | 0x99 => some .SOS_ALARM
  | 0xB3 => some .UNKNOWN_B3
  | _ => none

/-- The `Respond` enum: response policy attached to each class. -/
inductive Respond where
  | NON | INL | EXT
deriving DecidableEq, Repr

/-- The class attribute `RESPOND` of each catalogue class. -/
def RESPOND : Kind → Respond
  | .LOGIN => .INL
  | .HEARTBEAT => .INL
  | .GPS_POSITIONING => .INL
  | .GPS_OFFLINE_POSITIONING => .INL
  | .WIFI_OFFLINE_POSITIONING => .INL
  | .TIME => .INL
  | .STATUS => .EXT
  | .SETUP => .EXT
  | .WIFI_POSITIONING => .EXT
  | .POSITION_UPLOAD_INTERVAL => .EXT
  | _ => .NON

/-- Property `GPS303Pkt.packed`: prepend `length = len(payload) + 1` and the proto
byte with `pack("BB", ...)`, which raises `struct.error` when either
value exceeds one byte. -/
def packed (proto : Nat) (payload : Bytes) : Except PyErr Bytes :=
  if payload.length + 1 ≤ 255 ∧ proto ≤ 255 then
    .ok ((payload.length + 1) :: proto :: payload)
  else .error .structError

/-- A calendar timestamp as carried by the device protocol (the fields
handed to Python `datetime`). -/
structure DT6 where
  year : Nat
  month : Nat
  day : Nat
  hour : Nat
  minute : Nat
  second : Nat
deriving DecidableEq, Repr

/-- Gregorian leap year rule used by Python `datetime`. -/
def isLeap (y : Nat) : Bool := y % 4 = 0 ∧ (y % 100 ≠ 0 ∨ y % 400 = 0)

/-- Days in a month, as validated by the `datetime` constructor. -/
def daysInMonth (y m : Nat) : Nat :=
  if m = 2 then (if isLeap y then 29 else 28)
  else if m = 4 ∨ m = 6 ∨ m = 9 ∨ m = 11 then 30
  else 31

/-- The validity check the `datetime` constructor performs on its
arguments; constructing with values outside these bounds raises
`ValueError`. -/
def validDT (d : DT6) : Bool :=
  1 ≤ d.month ∧ d.month ≤ 12 ∧ 1 ≤ d.day ∧ d.day ≤ daysInMonth d.year d.month
    ∧ d.hour ≤ 23 ∧ d.minute ≤ 59 ∧ d.second ≤ 59

/-- Fields set by `LOGIN.in_decode`. -/
structure LoginFields where
  imei : String
  ver : Nat
deriving DecidableEq, Repr

/-- Method `LOGIN.in_decode`: `imei = payload[:-1].hex()`;
`ver = unpack("B", payload[-1:])[0]`, a `struct.error` on empty payload
(the 1-byte unpack of an empty slice). -/
def LOGIN_in_decode (payload : Bytes) : Except PyErr LoginFields :=
  match payload.getLast? with
  | none => .error .structError
  | some v => .ok ⟨bytesHex payload.dropLast, v⟩

/-- Fields set by `_GPS_POSITIONING.in_decode`. -/
structure GpsFields where
  dtime : Bytes
  devtime : Option DT6
  gps_data_length : Nat
  gps_nb_sat : Nat
  gps_is_valid : Bool
  heading : Nat
  latitude : ℚ
  longitude : ℚ
  speed : Nat
  flags : Nat
deriving DecidableEq, Repr

/-- Device-time decode of `_GPS_POSITIONING.in_decode`: six zero bytes
mean no timestamp; otherwise `unpack("BBBBBB", dtime)` (`struct.error`
unless exactly 6 bytes) feeds `datetime(2000 + yr, mo, da, hr, mi, se)`,
whose range check raises `ValueError`. -/
def gpsDevtime (dtime : Bytes) : Except PyErr (Option DT6) :=
  if dtime = [0, 0, 0, 0, 0, 0] then .ok none
  else if dtime.length = 6 then
    let d : DT6 := ⟨2000 + dtime.getD 0 0, dtime.getD 1 0, dtime.getD 2 0,
                    dtime.getD 3 0, dtime.getD 4 0, dtime.getD 5 0⟩
    if validDT d then .ok (some d) else .error .valueError
  else .error .structError

/-- Method `_GPS_POSITIONING.in_decode` (protos 0x10 and 0x11): type-A
timestamp, satellite nibble byte (`payload[6]`, an unguarded index),
then `unpack("!IIBH", payload[7:18])` for magnitude-encoded coordinates,
speed and the flags word.  Latitude is negated when flags bit 0x0400 is
clear, longitude when bit 0x0800 is set. -/
def gps_in_decode (payload : Bytes) : Except PyErr GpsFields :=
  match gpsDevtime (pySlice payload 0 6) with
  | .error e => .error e
  | .ok devtime =>
    match payload.get? 6 with
    | none => .error .indexError
    | some b6 =>
      if payload.length < 18 then .error .structError
      else
        let lat := be (pySlice payload 7 11)
        let lon := be (pySlice payload 11 15)
        let flags := be (pySlice payload 16 18)
        let flip_lon : Bool := flags &&& 0x0800 != 0
        let flip_lat : Bool := !(flags &&& 0x0400 != 0)
        .ok { dtime := pySlice payload 0 6
              devtime := devtime
              gps_data_length := b6 >>> 4
              gps_nb_sat := b6 &&& 0x0F
              gps_is_valid := flags &&& 0x1000 != 0
              heading := flags &&& 0x03FF
              latitude := (lat : ℚ) / (30000 * 60) * (if flip_lat then -1 else 1)
              longitude := (lon : ℚ) / (30000 * 60) * (if flip_lon then -1 else 1)
              speed := payload.getD 15 0
              flags := flags }

/-- Fields set by `STATUS.in_decode`. -/
structure StatusFields where
  batt : Nat
  ver : Nat
  timezone : Nat
  intvl : Nat
  signal : Option Nat
deriving DecidableEq, Repr

/-- Method `STATUS.in_decode`: `unpack("BBBB", payload[:4])` (`struct.error`
when fewer than 4 bytes), plus an optional fifth signal byte. -/
def STATUS_in_decode (payload : Bytes) : Except PyErr StatusFields :=
  if payload.length < 4 then .error .structError
  else
    .ok ⟨payload.getD 0 0, payload.getD 1 0, payload.getD 2 0, payload.getD 3 0,
         if 4 < payload.length then some (payload.getD 4 0) else none⟩

/-- Fields set by `_WIFI_POSITIONING.in_decode`. -/
structure WifiFields where
  dtime : Bytes
  devtime : Option DT6
  wifi_aps : List (String × Int)
  mcc : Nat
  mnc : Nat
  gsm_cells : List (Nat × Nat × Int)
deriving DecidableEq, Repr

/-- Device-time decode of `_WIFI_POSITIONING.in_decode`: six zero bytes
mean no timestamp; otherwise `datetime.strptime(dtime.hex(),
"%y%m%d%H%M%S")` succeeds only when the hex rendering is twelve decimal
digits forming a valid timestamp (`%y` maps 00-68 to 2000-2068 and 69-99
to 1969-1999), raising `ValueError` otherwise.  The subsequent
`astimezone` shift to UTC depends on the host timezone and is not
modelled beyond validity; the parsed fields are stored. -/
def wifiDevtime (dtime : Bytes) : Except PyErr (Option DT6) :=
  if dtime = [0, 0, 0, 0, 0, 0] then .ok none
  else if dtime.length = 6 ∧ dtime.all (fun b => b / 16 % 16 ≤ 9 ∧ b % 16 ≤ 9) then
    let v := fun i => 10 * (dtime.getD i 0 / 16 % 16) + dtime.getD i 0 % 16
    let year := if v 0 ≤ 68 then 2000 + v 0 else 1900 + v 0
    let d : DT6 := ⟨year, v 1, v 2, v 3, v 4, v 5⟩
    if validDT d then .ok (some d) else .error .valueError
  else .error .valueError

/-- One iteration of the Wi-Fi access point loop: the 7-byte record
slice `payload[6 + i * 7 : 13 + i * 7]`, whose MAC half is rendered as
colon-separated upper-case hex and whose signal byte is negated; the
direct index `slice[6]` raises `IndexError` on a truncated record. -/
def wifiAp (payload : Bytes) (i : Nat) : Except PyErr (String × Int) :=
  let s := pySlice payload (6 + i * 7) (13 + i * 7)
  match s.get? 6 with
  | none => .error .indexError
  | some sig => .ok (macColonHex (s.take 6), -(sig : Int))

/-- The Wi-Fi access point loop `for i in range(n)` of
`_WIFI_POSITIONING.in_decode`, appending one record per iteration. -/
def wifiAps (payload : Bytes) : Nat → Except PyErr (List (String × Int))
  | 0 => .ok []
  | n + 1 =>
    match wifiAps payload n, wifiAp payload n with
    | .ok rest, .ok ap => .ok (rest ++ [ap])
    | .error e, _ => .error e
    | .ok _, .error e => .error e

/-- One iteration of the GSM cell loop: `unpack("!HHB",
gsm_slice[4 + i * 5 : 9 + i * 5])` (`struct.error` unless exactly five
bytes), yielding `(locac, cellid, -sigstr)`. -/
def gsmCell (gsm : Bytes) (i : Nat) : Except PyErr (Nat × Nat × Int) :=
  let s := pySlice gsm (4 + i * 5) (9 + i * 5)
  if s.length = 5 then
    .ok (be (s.take 2), be (pySlice s 2 4), -(s.getD 4 0 : Int))
  else .error .structError

/-- The GSM cell loop `for i in range(ncells)` of
`_WIFI_POSITIONING.in_decode`. -/
def gsmCells (gsm : Bytes) : Nat → Except PyErr (List (Nat × Nat × Int))
  | 0 => .ok []
  | n + 1 =>
    match gsmCells gsm n, gsmCell gsm n with
    | .ok rest, .ok c => .ok (rest ++ [c])
    | .error e, _ => .error e
    | .ok _, .error e => .error e

/-- Method `_WIFI_POSITIONING.in_decode` (protos 0x17 and 0x69): type-B
timestamp, then `self.length` (the envelope length header byte, which
"has special meaning here") many 7-byte access point records, then the
GSM block `unpack("!BHB", gsm_slice[:4])` followed by `ncells` 5-byte
cell records. -/
def wifi_in_decode (length : Nat) (payload : Bytes) : Except PyErr WifiFields :=
  match wifiDevtime (pySlice payload 0 6) with
  | .error e => .error e
  | .ok devtime =>
    match wifiAps payload length with
    | .error e => .error e
    | .ok aps =>
      let gsm := payload.drop (6 + length * 7)
      if gsm.length < 4 then .error .structError
      else
        match gsmCells gsm (gsm.getD 0 0) with
        | .error e => .error e
        | .ok cells =>
          .ok ⟨pySlice payload 0 6, devtime, aps,
               be (pySlice gsm 1 3), gsm.getD 3 0, cells⟩

/-- The reason table of `MANUAL_POSITIONING.in_decode`
(`dict.get(flag, "Unknown")`). -/
def manualReason : Option Nat → String
  | some 1 => "Incorrect time"
  | some 2 => "LBS less"
  | some 3 => "WiFi less"
  | some 4 => "LBS search > 3 times"
  | some 5 => "Same LBS and WiFi data"
  | some 6 => "LBS prohibited, WiFi absent"
  | some 7 => "GPS spacing < 50 m"
  | _ => "Unknown"

/-- Strict UTF-8 decoding as performed by Python `bytes.decode()`;
rejects stray continuation bytes, overlong forms, surrogates and code
points above U+10FFFF with `ValueError` (`UnicodeDecodeError`). -/
def utf8Decode : Bytes → Except PyErr (List Char)
  | [] => .ok []
  | b :: rest =>
    if b < 0x80 then
      match utf8Decode rest with
      | .ok s => .ok (Char.ofNat b :: s)
      | .error e => .error e
    else if 0xC2 ≤ b ∧ b ≤ 0xDF then
      match rest with
      | c1 :: rest2 =>
        if 0x80 ≤ c1 ∧ c1 ≤ 0xBF then
          match utf8Decode rest2 with
          | .ok s => .ok (Char.ofNat ((b - 0xC0) * 64 + (c1 - 0x80)) :: s)
          | .error e => .error e
        else .error .valueError
      | [] => .error .valueError
    else if 0xE0 ≤ b ∧ b ≤ 0xEF then
      match rest with
      | c1 :: c2 :: rest2 =>
        let cp := (b - 0xE0) * 4096 + (c1 - 0x80) * 64 + (c2 - 0x80)
        if (0x80 ≤ c1 ∧ c1 ≤ 0xBF) ∧ (0x80 ≤ c2 ∧ c2 ≤ 0xBF)
            ∧ 0x800 ≤ cp ∧ ¬ (0xD800 ≤ cp ∧ cp ≤ 0xDFFF) then
          match utf8Decode rest2 with
          | .ok s => .ok (Char.ofNat cp :: s)
          | .error e => .error e
        else .error .valueError
      | _ => .error .valueError
    else if 0xF0 ≤ b ∧ b ≤ 0xF4 then
      match rest with
      | c1 :: c2 :: c3 :: rest2 =>
        let cp := (b - 0xF0) * 262144 + (c1 - 0x80) * 4096
                    + (c2 - 0x80) * 64 + (c3 - 0x80)
        if (0x80 ≤ c1 ∧ c1 ≤ 0xBF) ∧ (0x80 ≤ c2 ∧ c2 ≤ 0xBF)
            ∧ (0x80 ≤ c3 ∧ c3 ≤ 0xBF) ∧ 0x10000 ≤ cp ∧ cp ≤ 0x10FFFF then
          match utf8Decode rest2 with
          | .ok s => .ok (Char.ofNat cp :: s)
          | .error e => .error e
        else .error .valueError
      | _ => .error .valueError
    else .error .valueError

/-- The kind-specific attributes an inbound decode sets on the message
object; `nofields` is the base-class `in_decode`, which leaves the
payload unparsed. -/
inductive InFields where
  | login (f : LoginFields)
  | gps (f : GpsFields)
  | status (f : StatusFields)
  | wifi (f : WifiFields)
  | stopAlarm (flag : Nat)
  | manual (flag : Option Nat) (reason : String)
  | uploadInterval (interval : Nat)
  | asciidata (s : String)
  | nofields
deriving DecidableEq, Repr

/-- The `cause` attribute `parse_message` attaches to an `UNKNOWN`
result: either the `ValueError` for a proto number outside the
catalogue, or the `DecodeError` a packet constructor raised when its
decode hit a `struct.error`. -/
inductive Cause where
  | unknownProto (proto : Nat)
  | decodeError
deriving DecidableEq, Repr

/-- The inbound decode of each catalogue class (the `In.decode` method
binding made by the metaclass).  Classes that do not override
`in_decode` use the base no-op. -/
def inDecode (k : Kind) (length : Nat) (payload : Bytes) : Except PyErr InFields :=
  match k with
  | .LOGIN => (LOGIN_in_decode payload).map .login
  | .GPS_POSITIONING => (gps_in_decode payload).map .gps
  | .GPS_OFFLINE_POSITIONING => (gps_in_decode payload).map .gps
  | .STATUS => (STATUS_in_decode payload).map .status
  | .WIFI_OFFLINE_POSITIONING => (wifi_in_decode length payload).map .wifi
  | .WIFI_POSITIONING => (wifi_in_decode length payload).map .wifi
  | .STOP_ALARM =>
    match payload.get? 0 with
    | none => .error .indexError
    | some flag => .ok (.stopAlarm flag)
  | .MANUAL_POSITIONING => .ok (.manual payload.head? (manualReason payload.head?))
  | .POSITION_UPLOAD_INTERVAL =>
    if payload.length < 2 then .error .structError
    else .ok (.uploadInterval (be (pySlice payload 0 2)))
  | .UNKNOWN_B3 => (utf8Decode payload).map (fun cs => .asciidata (String.mk cs))
  | _ => .ok .nofields

/-- The object `parse_message` returns: its class (`kind`), effective
`PROTO` (overridden per-instance on `UNKNOWN` results), the raw
envelope `length` and `payload`, the decoded attributes and the
optional `cause`. -/
structure Parsed where
  kind : Kind
  PROTO : Nat
  length : Nat
  payload : Bytes
  fields : InFields
  cause : Option Cause
deriving DecidableEq, Repr

/-- Function `parse_message(packet)` for the inbound direction: the unguarded
`unpack("BB", packet[:2])` raises `struct.error` on a buffer shorter
than two bytes; an unknown proto or a `DecodeError` from the class
constructor yields an `UNKNOWN` object with the cause attached, while
any other exception raised inside the decode propagates. -/
def parse_message (packet : Bytes) : Except PyErr Parsed :=
  if packet.length < 2 then .error .structError
  else
    let length := packet.getD 0 0
    let proto := packet.getD 1 0
    let payload := packet.drop 2
    match classByProto proto with
    | none =>
      .ok ⟨.UNKNOWN, proto, length, payload, .nofields, some (.unknownProto proto)⟩
    | some k =>
      match inDecode k length payload with
      | .ok f => .ok ⟨k, PROTO k, length, payload, f, none⟩
      | .error .structError =>
        .ok ⟨.UNKNOWN, proto, length, payload, .nofields, some .decodeError⟩
      | .error e => .error e

/-- The first six fields of `datetime.utcnow().timetuple()`: the
current UTC wall-clock instant, always a valid calendar date. -/
structure Clock where
  year : Nat
  month : Nat
  day : Nat
  hour : Nat
  minute : Nat
  second : Nat
deriving DecidableEq, Repr

/-- Method `_GPS_POSITIONING.out_encode`: `pack("BBBBBB", year % 100, month,
day, hour, minute, second)` of the current UTC time. -/
def gpsTimeBytes (c : Clock) : Bytes :=
  [c.year % 100, c.month, c.day, c.hour, c.minute, c.second]

/-- Two-decimal-digit packing of one `strftime` field, as re-read by
`bytes.fromhex`: the byte whose hex digits are the two decimal digits. -/
def bcdByte (v : Nat) : Nat := 16 * (v / 10 % 10) + v % 10

/-- Method `WIFI_OFFLINE_POSITIONING.out_encode`:
`bytes.fromhex(utcnow().strftime("%y%m%d%H%M%S"))`. -/
def wifiTimeBytes (c : Clock) : Bytes :=
  [bcdByte (c.year % 100), bcdByte c.month, bcdByte c.day,
   bcdByte c.hour, bcdByte c.minute, bcdByte c.second]

/-- Method `TIME.out_encode`: `pack("!HBBBBB", *utcnow().timetuple()[:6])`. -/
def timeBytes (c : Clock) : Bytes :=
  [c.year / 256 % 256, c.year % 256, c.month, c.day, c.hour, c.minute, c.second]

/-- Value of `cls.Out().packed` for each kind whose `RESPOND` policy is
`Respond.INL` (the only kinds `inline_response` serializes): the
all-default outbound construction followed by envelope packing.  The
kinds with the base empty `out_encode` give the fixed two-byte
acknowledgement; the positioning and time kinds embed the current
clock.  No other kind is ever reached through this function. -/
def inlinePacked (k : Kind) (c : Clock) : Bytes :=
  match k with
  | .LOGIN => [1, 0x01]
  | .HEARTBEAT => [1, 0x08]
  | .GPS_POSITIONING => 7 :: 0x10 :: gpsTimeBytes c
  | .GPS_OFFLINE_POSITIONING => 7 :: 0x11 :: gpsTimeBytes c
  | .WIFI_OFFLINE_POSITIONING => 7 :: 0x17 :: wifiTimeBytes c
  | .TIME => 8 :: 0x30 :: timeBytes c
  | _ => []

/-- Function `inline_response(packet)`: `proto_of_message` unpacks the single
byte `packet[1:2]` (a `struct.error` on a buffer shorter than two
bytes); a catalogued proto with the `INL` policy gets the all-default
outbound acknowledgement, anything else gets `None`.  The current
clock is the only other input. -/
def inline_response (c : Clock) (packet : Bytes) : Except PyErr (Option Bytes) :=
  match packet.get? 1 with
  | none => .error .structError
  | some proto =>
    match classByProto proto with
    | some k => if RESPOND k = .INL then .ok (some (inlinePacked k c)) else .ok none
    | none => .ok none

/-- ASCII whitespace ignored around the digits by Python `int(string)`. -/
def pyWhitespace (ch : Char) : Bool :=
  ch = ' ' ∨ ch = '\t' ∨ ch = '\n' ∨ ch = '\r' ∨ ch = '\x0b' ∨ ch = '\x0c'

/-- Python `int(string)`: optional surrounding whitespace, an optional
sign, then a nonempty run of decimal digits (digit grouping with
underscores is not modelled); anything else raises `ValueError`. -/
def pyIntOfChars (s : List Char) : Except PyErr Int :=
  let t := ((s.dropWhile pyWhitespace).reverse.dropWhile pyWhitespace).reverse
  let signAndDigits : Int × List Char :=
    match t with
    | '+' :: rest => (1, rest)
    | '-' :: rest => (-1, rest)
    | l => (1, l)
  let digits := signAndDigits.2
  if digits ≠ [] ∧ digits.all (fun ch => '0' ≤ ch ∧ ch ≤ '9') then
    .ok (signAndDigits.1
          * (digits.foldl (fun a ch => 10 * a + (ch.toNat - 48)) (0 : Nat) : Nat))
  else .error .valueError

/-- The `hhmm` coercion: a four-character string whose halves parse as
hours 0-23 and minutes 0-59; returns the string unchanged, raising
`ValueError` otherwise.  Applied eagerly at construction time. -/
def hhmm (x : String) : Except PyErr String :=
  if x.data.length ≠ 4 then .error .valueError
  else
    match pyIntOfChars (x.data.take 2), pyIntOfChars (x.data.drop 2) with
    | .ok hh, .ok mm =>
      if hh < 0 ∨ hh > 23 ∨ mm < 0 ∨ mm > 59 then .error .valueError else .ok x
    | .error e, _ => .error e
    | .ok _, .error e => .error e

/-- The outbound field set of `DND_PERIOD` after construction-time
coercion of its `OUT_KWARGS`. -/
structure DndPeriod where
  onoff : Int
  week : Int
  fm1 : String
  to1 : String
  fm2 : String
  to2 : String
deriving DecidableEq, Repr

/-- Construction `DND_PERIOD.Out(...)`: `int` coercion of `onoff` and
`week`, `hhmm` validation of the four time strings. -/
def DND_PERIOD_Out_mk (onoff week : Int) (fm1 to1 fm2 to2 : String) :
    Except PyErr DndPeriod :=
  match hhmm fm1, hhmm to1, hhmm fm2, hhmm to2 with
  | .ok f1, .ok t1, .ok f2, .ok t2 => .ok ⟨onoff, week, f1, t1, f2, t2⟩
  | .error e, _, _, _ => .error e
  | .ok _, .error e, _, _ => .error e
  | .ok _, .ok _, .error e, _ => .error e
  | .ok _, .ok _, .ok _, .error e => .error e

/-- The `encode` method bound on `DND_PERIOD.Out` by the metaclass.
The source spells its payload builder `out_endode`, so the name
`out_encode` resolves to the inherited `GPS303Pkt.out_encode`, which
returns the empty payload; the validated fields are never serialized. -/
def DND_PERIOD_out_encode (_d : DndPeriod) : Bytes := []

/-- Serialization `DND_PERIOD.Out(...).packed`: envelope packing of the (empty)
encoded payload under proto 0x47. -/
def DND_PERIOD_packed (d : DndPeriod) : Except PyErr Bytes :=
  packed (PROTO .DND_PERIOD) (DND_PERIOD_out_encode d)

/-- The Python `float` coercion as applied to `WIFI_POSITIONING`'s
`OUT_KWARGS` defaults: `float(None)` raises `TypeError`; a numeric
argument passes through. -/
def pyFloat : Option ℚ → Except PyErr ℚ
  | none => .error .typeError
  | some q => .ok q

/-- The outbound field set of `WIFI_POSITIONING` after construction. -/
structure WifiPosOut where
  latitude : ℚ
  longitude : ℚ
deriving DecidableEq, Repr

/-- Construction `WIFI_POSITIONING.Out(latitude=..., longitude=...)`:
each keyword (or its declared default, `None`) is passed through the
`float` coercion. -/
def WIFI_POSITIONING_Out_mk (latitude longitude : Option ℚ) :
    Except PyErr WifiPosOut :=
  match pyFloat latitude, pyFloat longitude with
  | .ok la, .ok lo => .ok ⟨la, lo⟩
  | .error e, _ => .error e
  | .ok _, .error e => .error e

/-- Construction `WIFI_POSITIONING.Out()` with every parameter left at
its declared default (`None` for both coordinates). -/
def WIFI_POSITIONING_Out_default : Except PyErr WifiPosOut :=
  WIFI_POSITIONING_Out_mk none none

/-- Which catalogue classes override `out_decode` (only
`WIFI_POSITIONING` does; every other class inherits the base no-op). -/
def overridesOutDecode : Kind → Bool
  | .WIFI_POSITIONING => true
  | _ => false

/-- Which catalogue classes override `out_encode` (directly or through
an underscore base class).  `DND_PERIOD` is absent: its builder is
spelled `out_endode` and therefore does not override `out_encode`. -/
def overridesOutEncode : Kind → Bool
  | .SUPERVISION => true
  | .GPS_POSITIONING => true
  | .GPS_OFFLINE_POSITIONING => true
  | .STATUS => true
  | .WHITELIST_TOTAL => true
  | .WIFI_OFFLINE_POSITIONING => true
  | .TIME => true
  | .PROHIBIT_LBS => true
  | .GPS_LBS_SWITCH_TIMES => true
  | .REMOTE_MONITOR_PHONE => true
  | .SOS_PHONE => true
  | .DAD_PHONE => true
  | .MOM_PHONE => true
  | .GPS_OFF_PERIOD => true
  | .RESTART_SHUTDOWN => true
  | .DEVICE => true
  | .ALARM_CLOCK => true
  | .SETUP => true
  | .WIFI_POSITIONING => true
  | .POSITION_UPLOAD_INTERVAL => true
  | _ => false

/-- The two Wi-Fi positioning kinds, whose envelope `length` field is a
record count rather than a byte count. -/
def isWifiPositioningKind : Kind → Bool
  | .WIFI_OFFLINE_POSITIONING => true
  | .WIFI_POSITIONING => true
  | _ => false

/-- A GPS positioning payload with zero coordinate magnitudes whose
flags word carries exactly the two sign bits given: bit 5 (mask 0x0400)
and bit 4 (mask 0x0800). -/
def gpsZeroPayload (b5 b4 : Bool) : Bytes :=
  [0, 0, 0, 0, 0, 0, 0, 0, 0, 0, 0, 0, 0, 0, 0, 0,
   (if b5 then 4 else 0) + (if b4 then 8 else 0), 0]

/-- Helper: `parse_message` on a buffer of at least two bytes whose
proto is catalogued and whose inbound decode succeeds returns the
decoded message of that kind. -/
theorem parse_message_known (packet : Bytes) (k : Kind) (f : InFields)
    (h2 : 2 ≤ packet.length)
    (hk : classByProto (packet.getD 1 0) = some k)
    (hd : inDecode k (packet.getD 0 0) (packet.drop 2) = .ok f) :
    parse_message packet =
      .ok ⟨k, PROTO k, packet.getD 0 0, packet.drop 2, f, none⟩ := by
  unfold parse_message
  rw [if_neg (by omega)]
  simp only [hk, hd]

/-- Helper: a catalogued kind whose inbound decode raises the struct
unpacking error makes `parse_message` return the `UNKNOWN` object with
the `DecodeError` cause and the original length and payload. -/
theorem parse_message_decode_error (packet : Bytes) (k : Kind)
    (h2 : 2 ≤ packet.length)
    (hk : classByProto (packet.getD 1 0) = some k)
    (hd : inDecode k (packet.getD 0 0) (packet.drop 2) = .error .structError) :
    parse_message packet =
      .ok ⟨.UNKNOWN, packet.getD 1 0, packet.getD 0 0, packet.drop 2,
           .nofields, some .decodeError⟩ := by
  unfold parse_message
  rw [if_neg (by omega)]
  simp only [hk, hd]

/-- Helper: any decode exception other than the struct unpacking error
propagates out of `parse_message` to the caller. -/
theorem parse_message_propagates (packet : Bytes) (k : Kind) (e : PyErr)
    (h2 : 2 ≤ packet.length)
    (hk : classByProto (packet.getD 1 0) = some k)
    (hd : inDecode k (packet.getD 0 0) (packet.drop 2) = .error e)
    (hne : e ≠ .structError) :
    parse_message packet = .error e := by
  unfold parse_message
  rw [if_neg (by omega)]
  simp only [hk, hd]

/-- C10: on every input buffer shorter than two bytes, `parse_message`
raises a struct unpacking error to the caller instead of returning a
typed result: the two-byte header unpack happens before any error
handling and is not guarded. -/
theorem parse_message_short_buffer_raises (packet : Bytes)
    (h : packet.length < 2) : parse_message packet = .error .structError := by
  unfold parse_message
  rw [if_pos h]

/-- Witness for C10 at the empty buffer. -/
theorem parse_message_short_buffer_raises_witness :
    ([] : Bytes).length < 2 ∧ parse_message [] = .error .structError :=
  ⟨by decide, parse_message_short_buffer_raises [] (by decide)⟩

/-- C6: every packet whose proto byte is outside the catalogue parses
without error to an `UNKNOWN`-kind result whose payload is the wire
payload byte for byte and whose per-instance `PROTO` is the true wire
proto value, not the static sentinel 256. -/
theorem parse_message_unknown_proto_preserved (packet : Bytes)
    (h2 : 2 ≤ packet.length)
    (hk : classByProto (packet.getD 1 0) = none) :
    parse_message packet =
      .ok ⟨.UNKNOWN, packet.getD 1 0, packet.getD 0 0, packet.drop 2,
           .nofields, some (.unknownProto (packet.getD 1 0))⟩ := by
  unfold parse_message
  rw [if_neg (by omega)]
  simp only [hk]

/-- Witness for C6: proto byte 0x7F, which the catalogue lacks and
which differs from the sentinel 256. -/
theorem parse_message_unknown_proto_preserved_witness :
    2 ≤ ([0, 0x7F, 0xAB] : Bytes).length
    ∧ classByProto (([0, 0x7F, 0xAB] : Bytes).getD 1 0) = none
    ∧ (0x7F : Nat) ≠ 256
    ∧ parse_message [0, 0x7F, 0xAB] =
        .ok ⟨.UNKNOWN, 0x7F, 0, [0xAB], .nofields, some (.unknownProto 0x7F)⟩ :=
  ⟨by decide, by decide, by decide,
   parse_message_unknown_proto_preserved [0, 0x7F, 0xAB] (by decide) (by decide)⟩

/-- C2: a login packet `length=9, proto=0x01,
payload=<8-byte IMEI><1 version byte>` decodes to a `LOGIN` message
whose `imei` is the hex string of all payload bytes but the last and
whose `ver` is the last payload byte, and `inline_response` on the same
raw packet is exactly the two-byte empty-payload acknowledgement
`length=1, proto=0x01`. -/
theorem login_scenario (imei : Bytes) (ver : Nat) (c : Clock)
    (h8 : imei.length = 8) :
    parse_message (9 :: 1 :: (imei ++ [ver])) =
      .ok ⟨.LOGIN, 0x01, 9, imei ++ [ver], .login ⟨bytesHex imei, ver⟩, none⟩
    ∧ inline_response c (9 :: 1 :: (imei ++ [ver])) = .ok (some [1, 0x01]) := by
  constructor
  · have hd : inDecode .LOGIN 9 (imei ++ [ver]) = .ok (.login ⟨bytesHex imei, ver⟩) := by
      simp only [inDecode, LOGIN_in_decode, List.getLast?_concat,
                 List.dropLast_concat, Except.map]
    exact parse_message_known (9 :: 1 :: (imei ++ [ver])) .LOGIN
      (.login ⟨bytesHex imei, ver⟩) (by simp) rfl hd
  · rfl

/-- Witness for C2 at a concrete 8-byte IMEI and version byte. -/
theorem login_scenario_witness :
    ([1, 2, 3, 4, 5, 6, 7, 8] : Bytes).length = 8
    ∧ (parse_message (9 :: 1 :: ([1, 2, 3, 4, 5, 6, 7, 8] ++ [0x42])) =
        .ok ⟨.LOGIN, 0x01, 9, [1, 2, 3, 4, 5, 6, 7, 8] ++ [0x42],
             .login ⟨bytesHex [1, 2, 3, 4, 5, 6, 7, 8], 0x42⟩, none⟩
      ∧ inline_response ⟨2024, 5, 6, 7, 8, 9⟩
          (9 :: 1 :: ([1, 2, 3, 4, 5, 6, 7, 8] ++ [0x42])) = .ok (some [1, 0x01])) :=
  ⟨by decide, login_scenario [1, 2, 3, 4, 5, 6, 7, 8] 0x42 ⟨2024, 5, 6, 7, 8, 9⟩ (by decide)⟩

/-- C9: whatever construction parameters an outbound `DND_PERIOD`
message is built from, serializing it gives the two-byte envelope with
length byte 1, proto byte 0x47 and an empty payload: the payload
builder is spelled `out_endode` in the source, so the inherited default
empty `out_encode` is what `packed` invokes. -/
theorem dnd_period_serializes_empty (onoff week : Int)
    (fm1 to1 fm2 to2 : String) (d : DndPeriod)
    (h : DND_PERIOD_Out_mk onoff week fm1 to1 fm2 to2 = .ok d) :
    DND_PERIOD_packed d = .ok [1, 0x47] := rfl

/-- Witness for C9 at the declared default parameters. -/
theorem dnd_period_serializes_empty_witness :
    DND_PERIOD_Out_mk 0 3 "0000" "2359" "0000" "2359" =
      .ok ⟨0, 3, "0000", "2359", "0000", "2359"⟩
    ∧ DND_PERIOD_packed ⟨0, 3, "0000", "2359", "0000", "2359"⟩ = .ok [1, 0x47] :=
  ⟨by decide,
   dnd_period_serializes_empty 0 3 "0000" "2359" "0000" "2359"
     ⟨0, 3, "0000", "2359", "0000", "2359"⟩ (by decide)⟩

/-- Counterexample to C5: the round-trip claim names the instance built
with all construction-time defaults, but constructing
`WIFI_POSITIONING.Out()` with its declared defaults already raises a
`TypeError` (the `float` coercion applied to the default `None`), so
that instance does not exist and `decode(encode(x)) == x` fails at it. -/
theorem wifi_positioning_out_default_raises :
    WIFI_POSITIONING_Out_default = .error .typeError := rfl

/-- C5 as amended: the only catalogue kind that defines both an
outbound encode and an outbound decode is `WIFI_POSITIONING`, and
constructing its outbound instance with all construction-time default
parameters fails with a `TypeError` from the `float` coercion of the
`None` defaults, so no default-built instance exists for the round-trip
to hold on. -/
theorem roundtrip_unique_kind_default_construction_fails :
    (∀ k : Kind,
      (overridesOutEncode k = true ∧ overridesOutDecode k = true)
        ↔ k = .WIFI_POSITIONING)
    ∧ WIFI_POSITIONING_Out_mk none none = .error .typeError := by
  constructor
  · intro k
    cases k <;> simp [overridesOutEncode, overridesOutDecode]
  · rfl

/-- C7: for every non-Wi-Fi-positioning kind and every encoded payload
whose envelope packing succeeds, the envelope's first byte equals the
length of the payload after the two-byte header plus one, and its
second byte equals the kind's proto number. -/
theorem packed_envelope_invariant (k : Kind) (payload env : Bytes)
    (hw : isWifiPositioningKind k = false)
    (h : packed (PROTO k) payload = .ok env) :
    env.getD 0 0 = (env.drop 2).length + 1 ∧ env.getD 1 0 = PROTO k := by
  unfold packed at h
  split at h
  · injection h with h
    subst h
    simp
  · cases h

/-- Witness for C7 at the `LOGIN` kind with the empty payload its
default `out_encode` produces. -/
theorem packed_envelope_invariant_witness :
    isWifiPositioningKind .LOGIN = false
    ∧ packed (PROTO .LOGIN) [] = .ok [1, 0x01]
    ∧ (([1, 0x01] : Bytes).getD 0 0 = (([1, 0x01] : Bytes).drop 2).length + 1
        ∧ ([1, 0x01] : Bytes).getD 1 0 = PROTO .LOGIN) :=
  ⟨by decide, by decide,
   packed_envelope_invariant .LOGIN [] [1, 0x01] (by decide) (by decide)⟩

/-- C8: `inline_response` reads nothing of the packet beyond the proto
byte at index 1, so any two raw packets with equal proto bytes get the
same decision and, at the same clock instant, byte-identical replies. -/
theorem inline_response_depends_only_on_proto (c : Clock) (p1 p2 : Bytes)
    (h : p1.get? 1 = p2.get? 1) :
    inline_response c p1 = inline_response c p2 := by
  unfold inline_response
  rw [h]

/-- Witness for C8: two packets sharing only the proto byte 0x01. -/
theorem inline_response_depends_only_on_proto_witness :
    (([0, 1] : Bytes).get? 1 = (([99, 1, 5, 6] : Bytes)).get? 1)
    ∧ inline_response ⟨2024, 5, 6, 7, 8, 9⟩ [0, 1]
        = inline_response ⟨2024, 5, 6, 7, 8, 9⟩ [99, 1, 5, 6] :=
  ⟨by decide,
   inline_response_depends_only_on_proto ⟨2024, 5, 6, 7, 8, 9⟩ [0, 1] [99, 1, 5, 6] (by decide)⟩

/-- Helper: the access point loop returns one entry per counter value,
and the entry at index `i` is the rendered 7-byte record starting at
payload offset `6 + i * 7`. -/
theorem wifiAps_spec (payload : Bytes) :
    ∀ (n : Nat) (l : List (String × Int)), wifiAps payload n = .ok l →
      l.length = n ∧ ∀ i, i < n →
        l[i]? = some (macColonHex ((pySlice payload (6 + i * 7) (13 + i * 7)).take 6),
                      -((pySlice payload (6 + i * 7) (13 + i * 7)).getD 6 0 : Int)) := by
  intro n
  induction n with
  | zero =>
    intro l h
    injection h with h
    subst h
    exact ⟨rfl, fun i hi => absurd hi (Nat.not_lt_zero i)⟩
  | succ n ih =>
    intro l h
    unfold wifiAps at h
    cases hr : wifiAps payload n with
    | error e => simp only [hr] at h; exact Except.noConfusion h
    | ok rest =>
      cases ha : wifiAp payload n with
      | error e => simp only [hr, ha] at h; exact Except.noConfusion h
      | ok ap =>
        simp only [hr, ha, Except.ok.injEq] at h
        subst h
        obtain ⟨hlen, hget⟩ := ih rest hr
        refine ⟨by simp [hlen], ?_⟩
        intro i hi
        rcases Nat.lt_succ_iff_lt_or_eq.mp hi with hlt | heq
        · rw [List.getElem?_append_left (by omega)]
          exact hget i hlt
        · rw [heq, ← hlen, List.getElem?_concat_length]
          unfold wifiAp at ha
          cases hs : (pySlice payload (6 + n * 7) (13 + n * 7)).get? 6 with
          | none => simp only [hs] at ha; exact Except.noConfusion ha
          | some sig =>
            simp only [hs, Except.ok.injEq] at ha
            subst ha
            rw [hlen]
            have hgd : (pySlice payload (6 + n * 7) (13 + n * 7)).getD 6 0 = sig := by
              rw [List.getD_eq_getElem?_getD, ← List.get?_eq_getElem?, hs]
              rfl
            rw [hgd]

/-- Helper: a successful `_WIFI_POSITIONING.in_decode` stores exactly
the result of the access point loop run with the envelope length. -/
theorem wifi_in_decode_aps (length : Nat) (payload : Bytes) (w : WifiFields)
    (h : wifi_in_decode length payload = .ok w) :
    wifiAps payload length = .ok w.wifi_aps := by
  unfold wifi_in_decode at h
  cases hdt : wifiDevtime (pySlice payload 0 6) with
  | error e => simp only [hdt] at h; exact Except.noConfusion h
  | ok devtime =>
    simp only [hdt] at h
    cases haps : wifiAps payload length with
    | error e => simp only [haps] at h; exact Except.noConfusion h
    | ok aps =>
      simp only [haps] at h
      split at h
      · exact Except.noConfusion h
      · cases hc : gsmCells (payload.drop (6 + length * 7))
            ((payload.drop (6 + length * 7)).getD 0 0) with
        | error e => simp only [hc] at h; exact Except.noConfusion h
        | ok cells =>
          simp only [hc, Except.ok.injEq] at h
          subst h
          rfl

/-- C3: every inbound Wi-Fi positioning packet (proto 0x17 or 0x69)
that decodes to a Wi-Fi message carries exactly `N` access point
entries where `N` is the envelope's length header byte — the overloaded
header field, not the payload size — and the entry at index `i` pairs
the colon-separated hex of the record's 6-byte MAC with the negation of
the record's 7th byte. -/
theorem wifi_ap_count_from_length_header (hd proto : Nat) (payload : Bytes)
    (p : Parsed) (f : WifiFields)
    (hproto : proto = 0x17 ∨ proto = 0x69)
    (hp : parse_message (hd :: proto :: payload) = .ok p)
    (hf : p.fields = .wifi f) :
    f.wifi_aps.length = hd
    ∧ ∀ i, i < hd →
        f.wifi_aps[i]? =
          some (macColonHex ((pySlice payload (6 + i * 7) (13 + i * 7)).take 6),
                -((pySlice payload (6 + i * 7) (13 + i * 7)).getD 6 0 : Int)) := by
  have hkind : ∃ k : Kind, classByProto ((hd :: proto :: payload).getD 1 0) = some k
      ∧ ∀ a (b : Bytes), inDecode k a b = (wifi_in_decode a b).map InFields.wifi := by
    rcases hproto with h17 | h69
    · subst h17
      exact ⟨.WIFI_OFFLINE_POSITIONING, rfl, fun a b => rfl⟩
    · subst h69
      exact ⟨.WIFI_POSITIONING, rfl, fun a b => rfl⟩
  obtain ⟨k, hk, hdec⟩ := hkind
  cases hw : wifi_in_decode hd payload with
  | ok w =>
    have hknown := parse_message_known (hd :: proto :: payload) k (.wifi w)
      (by simp) hk (by rw [hdec]; show (wifi_in_decode hd payload).map _ = _; rw [hw]; rfl)
    rw [hp] at hknown
    injection hknown with hknown
    subst hknown
    simp only [InFields.wifi.injEq] at hf
    subst hf
    exact wifiAps_spec payload hd w.wifi_aps (wifi_in_decode_aps hd payload w hw)
  | error e =>
    cases e with
    | structError =>
      have hu := parse_message_decode_error (hd :: proto :: payload) k
        (by simp) hk (by rw [hdec]; show (wifi_in_decode hd payload).map _ = _; rw [hw]; rfl)
      rw [hp] at hu
      injection hu with hu
      subst hu
      exact absurd hf (by simp)
    | indexError =>
      have hu := parse_message_propagates (hd :: proto :: payload) k .indexError
        (by simp) hk (by rw [hdec]; show (wifi_in_decode hd payload).map _ = _; rw [hw]; rfl)
        (by simp)
      rw [hp] at hu
      exact Except.noConfusion hu
    | valueError =>
      have hu := parse_message_propagates (hd :: proto :: payload) k .valueError
        (by simp) hk (by rw [hdec]; show (wifi_in_decode hd payload).map _ = _; rw [hw]; rfl)
        (by simp)
      rw [hp] at hu
      exact Except.noConfusion hu
    | typeError =>
      have hu := parse_message_propagates (hd :: proto :: payload) k .typeError
        (by simp) hk (by rw [hdec]; show (wifi_in_decode hd payload).map _ = _; rw [hw]; rfl)
        (by simp)
      rw [hp] at hu
      exact Except.noConfusion hu

/-- Witness for C3: a proto 0x17 packet with length header 1, one
7-byte access point record and an empty GSM cell block. -/
theorem wifi_ap_count_from_length_header_witness :
    parse_message
        (1 :: 0x17 :: [0, 0, 0, 0, 0, 0, 0xAB, 0xCD, 0xEF, 1, 2, 3, 0x50, 0, 1, 2, 3]) =
      .ok ⟨.WIFI_OFFLINE_POSITIONING, 0x17, 1,
           [0, 0, 0, 0, 0, 0, 0xAB, 0xCD, 0xEF, 1, 2, 3, 0x50, 0, 1, 2, 3],
           .wifi ⟨[0, 0, 0, 0, 0, 0], none, [("AB:CD:EF:01:02:03", -0x50)], 258, 3, []⟩,
           none⟩
    ∧ (([("AB:CD:EF:01:02:03", (-0x50 : Int))] : List (String × Int)).length = 1
        ∧ ∀ i, i < 1 →
            ([("AB:CD:EF:01:02:03", (-0x50 : Int))] : List (String × Int))[i]? =
              some (macColonHex
                      ((pySlice [0, 0, 0, 0, 0, 0, 0xAB, 0xCD, 0xEF, 1, 2, 3, 0x50, 0, 1, 2, 3]
                          (6 + i * 7) (13 + i * 7)).take 6),
                    -((pySlice [0, 0, 0, 0, 0, 0, 0xAB, 0xCD, 0xEF, 1, 2, 3, 0x50, 0, 1, 2, 3]
                          (6 + i * 7) (13 + i * 7)).getD 6 0 : Int))) :=
  ⟨by decide,
   wifi_ap_count_from_length_header 1 0x17
     [0, 0, 0, 0, 0, 0, 0xAB, 0xCD, 0xEF, 1, 2, 3, 0x50, 0, 1, 2, 3]
     ⟨.WIFI_OFFLINE_POSITIONING, 0x17, 1,
      [0, 0, 0, 0, 0, 0, 0xAB, 0xCD, 0xEF, 1, 2, 3, 0x50, 0, 1, 2, 3],
      .wifi ⟨[0, 0, 0, 0, 0, 0], none, [("AB:CD:EF:01:02:03", -0x50)], 258, 3, []⟩, none⟩
     ⟨[0, 0, 0, 0, 0, 0], none, [("AB:CD:EF:01:02:03", -0x50)], 258, 3, []⟩
     (Or.inl rfl) (by decide) rfl⟩

/-- C4: for every GPS positioning payload that decodes, the latitude is
the unsigned 32-bit magnitude divided by 30000*60, negated exactly when
flags bit 5 (mask 0x0400) is clear, and the longitude is the unsigned
32-bit magnitude divided by 30000*60, negated exactly when flags bit 4
(mask 0x0800) is set; and raw magnitude 0 decodes to 0.0 degrees under
every one of the 4 combinations of the two sign bits. -/
theorem gps_coordinate_sign_decode :
    (∀ (payload : Bytes) (f : GpsFields), gps_in_decode payload = .ok f →
      f.latitude = (if be (pySlice payload 16 18) &&& 0x0400 = 0
          then -((be (pySlice payload 7 11) : ℚ) / (30000 * 60))
          else (be (pySlice payload 7 11) : ℚ) / (30000 * 60))
      ∧ f.longitude = (if be (pySlice payload 16 18) &&& 0x0800 ≠ 0
          then -((be (pySlice payload 11 15) : ℚ) / (30000 * 60))
          else (be (pySlice payload 11 15) : ℚ) / (30000 * 60)))
    ∧ (∀ b5 b4 : Bool,
        (gps_in_decode (gpsZeroPayload b5 b4)).map GpsFields.latitude = .ok 0
        ∧ (gps_in_decode (gpsZeroPayload b5 b4)).map GpsFields.longitude = .ok 0) := by
  constructor
  · intro payload f h
    unfold gps_in_decode at h
    cases hdt : gpsDevtime (pySlice payload 0 6) with
    | error e => simp only [hdt] at h; exact Except.noConfusion h
    | ok devtime =>
      simp only [hdt] at h
      cases h6 : payload.get? 6 with
      | none => simp only [h6] at h; exact Except.noConfusion h
      | some b6 =>
        simp only [h6] at h
        split at h
        · exact Except.noConfusion h
        · simp only [Except.ok.injEq] at h
          subst h
          constructor
          · by_cases hbit : be (pySlice payload 16 18) &&& 0x0400 = 0
            · simp [hbit, mul_neg_one]
            · simp [hbit]
          · by_cases hbit : be (pySlice payload 16 18) &&& 0x0800 = 0
            · simp [hbit]
            · simp [hbit, mul_neg_one]
  · intro b5 b4
    cases b5 <;> cases b4 <;>
      constructor <;>
        simp [gps_in_decode, gpsDevtime, gpsZeroPayload, pySlice, be, Except.map]

/-- Witness for C4: a payload whose coordinate magnitudes are 1800000
(one degree) and whose flags word is exactly 0x0400, so the latitude
keeps its sign and the longitude keeps its sign. -/
theorem gps_coordinate_sign_decode_witness :
    gps_in_decode [0, 0, 0, 0, 0, 0, 0, 0, 27, 119, 64, 0, 27, 119, 64, 0, 4, 0] =
      .ok ⟨[0, 0, 0, 0, 0, 0], none, 0, 0, false, 0, 1, 1, 0, 1024⟩
    ∧ ((⟨[0, 0, 0, 0, 0, 0], none, 0, 0, false, 0, 1, 1, 0, 1024⟩ : GpsFields).latitude
        = (if be (pySlice [0, 0, 0, 0, 0, 0, 0, 0, 27, 119, 64, 0, 27, 119, 64, 0, 4, 0] 16 18)
              &&& 0x0400 = 0
           then -((be (pySlice [0, 0, 0, 0, 0, 0, 0, 0, 27, 119, 64, 0, 27, 119, 64, 0, 4, 0] 7 11) : ℚ)
                    / (30000 * 60))
           else (be (pySlice [0, 0, 0, 0, 0, 0, 0, 0, 27, 119, 64, 0, 27, 119, 64, 0, 4, 0] 7 11) : ℚ)
                  / (30000 * 60))
      ∧ (⟨[0, 0, 0, 0, 0, 0], none, 0, 0, false, 0, 1, 1, 0, 1024⟩ : GpsFields).longitude
        = (if be (pySlice [0, 0, 0, 0, 0, 0, 0, 0, 27, 119, 64, 0, 27, 119, 64, 0, 4, 0] 16 18)
              &&& 0x0800 ≠ 0
           then -((be (pySlice [0, 0, 0, 0, 0, 0, 0, 0, 27, 119, 64, 0, 27, 119, 64, 0, 4, 0] 11 15) : ℚ)
                    / (30000 * 60))
           else (be (pySlice [0, 0, 0, 0, 0, 0, 0, 0, 27, 119, 64, 0, 27, 119, 64, 0, 4, 0] 11 15) : ℚ)
                  / (30000 * 60))) := by
  have hdec : gps_in_decode [0, 0, 0, 0, 0, 0, 0, 0, 27, 119, 64, 0, 27, 119, 64, 0, 4, 0] =
      .ok ⟨[0, 0, 0, 0, 0, 0], none, 0, 0, false, 0, 1, 1, 0, 1024⟩ := by
    simp [gps_in_decode, gpsDevtime, pySlice, be]
    norm_num
    decide
  exact ⟨hdec, gps_coordinate_sign_decode.1 _ _ hdec⟩

/-- Counterexample to C1: a GPS positioning packet whose payload is six
zero bytes is structurally too short for its kind's layout, yet
`parse_message` raises an `IndexError` to the caller (the unguarded
`payload[6]` access) instead of returning a typed `UNKNOWN` result:
only `struct.error` failures are converted. -/
theorem parse_message_short_gps_payload_raises :
    parse_message [6, 0x10, 0, 0, 0, 0, 0, 0] = .error .indexError := by decide

/-- C1 as amended: for every inbound packet of a catalogued kind whose
payload decode fails with a struct unpacking error, `parse_message`
returns an `UNKNOWN`-kind object carrying the decode cause and the
original length and payload; decode failures raised through direct byte
indexing or value validation instead propagate to the caller. -/
theorem parse_message_struct_error_to_unknown (packet : Bytes) (k : Kind)
    (h2 : 2 ≤ packet.length)
    (hk : classByProto (packet.getD 1 0) = some k)
    (hd : inDecode k (packet.getD 0 0) (packet.drop 2) = .error .structError) :
    parse_message packet =
      .ok ⟨.UNKNOWN, packet.getD 1 0, packet.getD 0 0, packet.drop 2,
           .nofields, some .decodeError⟩ :=
  parse_message_decode_error packet k h2 hk hd

/-- Witness for C1's amended statement: an empty `LOGIN` payload, whose
one-byte version unpack raises `struct.error`. -/
theorem parse_message_struct_error_to_unknown_witness :
    2 ≤ ([1, 1] : Bytes).length
    ∧ classByProto (([1, 1] : Bytes).getD 1 0) = some .LOGIN
    ∧ inDecode .LOGIN 1 [] = .error .structError
    ∧ parse_message [1, 1] =
        .ok ⟨.UNKNOWN, 1, 1, [], .nofields, some .decodeError⟩ :=
  ⟨by decide, by decide, by decide,
   parse_message_struct_error_to_unknown [1, 1] .LOGIN (by decide) (by decide) (by decide)⟩

end GPS303
